import Mathlib

/-!
Shallow embedding of the shadowverse_2pick recommendation engine
(`pick_advisor.py`, `enhanced_advisor.py`, `synergy_engine.py`,
`archetype_analyzer.py`, `learning_system.py`, `weights_manager.py`,
`build_card_metrics.py`).

Conventions of the embedding:
* Python floats are modelled as exact rationals (ℚ); every constant in the
  scoring code is a decimal literal, so all comparisons and arithmetic used
  by the claims are exact.
* The SQLite `cards` table (joined with `card_metrics`) is modelled as a
  list of `Card` records passed explicitly; a `SELECT ... WHERE card_id = ?`
  becomes `List.find?` on that list.
* Python `dict`s are modelled as insertion-ordered association lists
  (`Dict`), with `dict.get` / item assignment / `dict.update` as
  `dictGet` / `dictSet` / `dictUpdate`.
* The regular-expression patterns used by the synergy and archetype engines
  are compiled, verbatim, into a small pattern language (`RAtom`): literal
  characters, `.*`, `\d+` and a character range; `re.search` with
  `re.IGNORECASE` is `reSearchS` (case folding only affects ASCII letters,
  as in the patterns' `PP`).
-/

namespace SV

/-- A Python `dict`, as an insertion-ordered association list. -/
abbrev Dict (κ α : Type) := List (κ × α)

/-- `d.get(k)` : first binding of `k`, if any. -/
def dictGet [BEq κ] {α : Type} : Dict κ α → κ → Option α
  | [], _ => none
  | (k₁, v) :: rest, k => if k₁ == k then some v else dictGet rest k

/-- `d.get(k, dflt)`. -/
def dictGetD [BEq κ] {α : Type} (d : Dict κ α) (k : κ) (dflt : α) : α :=
  (dictGet d k).getD dflt

/-- `d[k] = v` : replace the first binding of `k` in place, else append. -/
def dictSet [BEq κ] {α : Type} : Dict κ α → κ → α → Dict κ α
  | [], k, v => [(k, v)]
  | (k₁, v₁) :: rest, k, v =>
      if k₁ == k then (k₁, v) :: rest else (k₁, v₁) :: dictSet rest k v

/-- `d.update(w)` : set every binding of `w` into `d`, in order. -/
def dictUpdate [BEq κ] {α : Type} (d w : Dict κ α) : Dict κ α :=
  w.foldl (fun acc kv => dictSet acc kv.1 kv.2) d

/-- The keys of `d` are pairwise distinct (always true of a Python dict). -/
def noDupKeys [BEq κ] {α : Type} : Dict κ α → Bool
  | [] => true
  | (k, _) :: rest => !(rest.any (fun kv => kv.1 == k)) && noDupKeys rest

/-- Every key of `d` is also a key of `w`. -/
def keysSubB [BEq κ] {α : Type} (d w : Dict κ α) : Bool :=
  d.all (fun kv => (dictGet w kv.1).isSome)

/-- Python `round(q, 1)` (round to one decimal; ties go up). -/
def round1 (q : ℚ) : ℚ := (round (q * 10) : ℤ) / 10

/-- Python `round(q, 3)`. -/
def round3 (q : ℚ) : ℚ := (round (q * 1000) : ℤ) / 1000

/-- Rendering of a rational with one decimal digit, for the `{x:.1f}`
interpolations inside reasoning strings (no claim inspects these). -/
def fmt1 (q : ℚ) : String :=
  let m : ℤ := round (q * 10)
  toString (m / 10) ++ "." ++ toString (m % 10).natAbs

/-! ### weights_manager.py / config.py -/

/-- `DEFAULT_WEIGHTS["weights"]` from `config.py`. -/
def DEFAULT_WEIGHTS : Dict String ℚ :=
  [("base", 1), ("curve", 1), ("role", 1), ("duplication", 1),
   ("synergy", 1), ("archetype", 1), ("meta", 1)]

/-- `WeightsManager.get_weights` (returns a copy of the stored dict;
copying is the identity on values). -/
def get_weights (st : Dict String ℚ) : Dict String ℚ := st

/-- `WeightsManager.update_weights`: `self.weights.update(new_weights)`.
The file persistence writes the same mapping; the stored dict is the state. -/
def update_weights (st new_weights : Dict String ℚ) : Dict String ℚ :=
  dictUpdate st new_weights

/-! ### learning_system.py -/

/-- One entry of a pick log's `scores_json` (the per-candidate breakdown
written by the enhanced advisor; all keys present, `.get(k, 0)` is field
access). -/
structure ScoreEntry where
  card_id : String
  base_score : ℚ
  curve_bonus : ℚ
  role_bonus : ℚ
  duplication_penalty : ℚ
  synergy_bonus : ℚ
  archetype_bonus : ℚ
  meta_bonus : ℚ
deriving DecidableEq

/-- A row of `pick_logs` already satisfying the SQL filter
(`action = 'pick'`, non-null `chosen_id` and parseable `scores_json`);
rows with unparseable JSON are skipped before this point. -/
structure PickLogRow where
  chosen_id : String
  scores : List ScoreEntry
  recommended_id : String

/-- A training sample produced by `collect_training_data`. -/
structure TrainingSample where
  features : Dict String ℚ
  label : Nat
  agreement : Bool

/-- The per-pair feature difference dict (`chosen − other`). -/
def featureDiff (cs os : ScoreEntry) : Dict String ℚ :=
  [("base", cs.base_score - os.base_score),
   ("curve", cs.curve_bonus - os.curve_bonus),
   ("role", cs.role_bonus - os.role_bonus),
   ("duplication", cs.duplication_penalty - os.duplication_penalty),
   ("synergy", cs.synergy_bonus - os.synergy_bonus),
   ("archetype", cs.archetype_bonus - os.archetype_bonus),
   ("meta", cs.meta_bonus - os.meta_bonus)]

/-- `LearningSystem.collect_training_data`. -/
def collect_training_data (logs : List PickLogRow) : List TrainingSample :=
  logs.foldl
    (fun acc log =>
      if 2 ≤ log.scores.length then
        match log.scores.find? (fun s => s.card_id == log.chosen_id) with
        | none => acc
        | some chosen_score =>
          let other_scores := log.scores.filter (fun s => s.card_id != log.chosen_id)
          acc ++ other_scores.map (fun os =>
            ⟨featureDiff chosen_score os, 1, log.chosen_id == log.recommended_id⟩)
      else acc)
    []

/-- `LearningSystem.optimize_weights`.  The ridge-regression kernel of
lines 71–90 (numpy matrix solve on floats, clipping, dict conversion) is
abstracted as the `solver` parameter; `none` models `np.linalg.LinAlgError`,
in which case the current weights are kept.  Both branches the claims
exercise (`not training_data`, `len(X) < 5`) are concrete. -/
def optimize_weights (solver : List TrainingSample → Option (Dict String ℚ))
    (st : Dict String ℚ) (training_data : List TrainingSample) : Dict String ℚ :=
  if training_data.isEmpty then get_weights st
  else if training_data.length < 5 then get_weights st
  else
    match solver training_data with
    | some w => w
    | none => get_weights st

/-- The result dict of `LearningSystem.train_and_update`
(`agreement_rate` and `weight_changes` only exist on the success path). -/
structure TrainResult where
  success : Bool
  message : String
  data_count : Nat
  agreement_rate : Option ℚ
  weight_changes : Option (Dict String ℚ)

/-- `LearningSystem.train_and_update`, as a state transformer on the
stored weights (`old_weights[k]` is read with default 0; it is always
present for the keys the solver produces). -/
def train_and_update (solver : List TrainingSample → Option (Dict String ℚ))
    (logs : List PickLogRow) (st : Dict String ℚ) :
    TrainResult × Dict String ℚ :=
  let training_data := collect_training_data logs
  if training_data.isEmpty then
    (⟨false, "学習用データが不足しています", 0, none, none⟩, st)
  else
    let old_weights := get_weights st
    let new_weights := optimize_weights solver st training_data
    let st2 := update_weights st new_weights
    let agreement_rate : ℚ :=
      (training_data.countP (fun d => d.agreement) : ℚ) / (training_data.length : ℚ)
    (⟨true, toString training_data.length ++ "件のデータから学習しました",
      training_data.length,
      some (round1 (agreement_rate * 100)),
      some (new_weights.map (fun kv => (kv.1, round3 (kv.2 - dictGetD old_weights kv.1 0))))⟩,
     st2)

/-! ### The card database -/

/-- A row of the `cards` table joined with its `card_metrics` row, with the
columns the embedded functions read.  `roles` and `keywords` are the decoded
JSON lists; `base_rating` comes from the metrics row (built for every card
by `build_all_metrics`). -/
structure Card where
  card_id : String
  name : String
  class_id : Nat
  class_name : String
  cost : Nat
  card_type : String
  attack : Option Int
  defense : Option Int
  roles : List String
  keywords : List String
  skill_text : String
  evo_skill_text : String
  base_rating : ℚ
deriving DecidableEq

/-- The database: the list of card rows. -/
abbrev DB := List Card

/-- `SELECT ... FROM cards ... WHERE card_id = ?` (plus the metrics join);
`card_id` is the primary key, so the first hit is the row. -/
def get_card_info (db : DB) (card_id : String) : Option Card :=
  db.find? (fun c => c.card_id == card_id)

/-- `f"{skill_text} {evo_skill_text}"`, the combined card text every
pattern is matched against. -/
def fullText (c : Card) : String := c.skill_text ++ " " ++ c.evo_skill_text

/-! ### build_card_metrics.py (stat efficiency, claim C8) -/

/-- `CardMetricsBuilder.expected_stats` with its `.get(cost, cost*2)`
default. -/
def expected_stats (cost : Nat) : ℚ :=
  match cost with
  | 1 => 2 | 2 => 4 | 3 => 6 | 4 => 8 | 5 => 10
  | 6 => 12 | 7 => 14 | 8 => 16 | 9 => 18 | 10 => 20
  | _ => (cost : ℚ) * 2

/-- Python truthiness of a nullable integer column: `not x` holds for both
`None` and `0`. -/
def intFalsy : Option Int → Bool
  | none => true
  | some v => v == 0

/-- `CardMetricsBuilder.calculate_stat_efficiency`. -/
def calculate_stat_efficiency (card : Card) : ℚ :=
  if card.card_type != "follower" || intFalsy card.attack || intFalsy card.defense then 0
  else
    let actual : ℚ := ((card.attack.getD 0 : Int) : ℚ) + ((card.defense.getD 0 : Int) : ℚ)
    (actual - expected_stats card.cost) * 2

/-! ### pick_advisor.py -/

/-- The deck analysis dict of `TwoPickAdvisor.analyze_deck`: the
`curve` and `roles` dicts are represented by their count functions
(`dict.get(key, 0)` is application). -/
structure DeckAnalysis where
  total_cards : Nat
  curve : Nat → Nat
  roles : String → Nat

/-- `TwoPickAdvisor.analyze_deck`: unresolvable ids still count toward
`total_cards` but contribute nothing to the curve or role tallies. -/
def analyze_deck (db : DB) (deck_card_ids : List String) : DeckAnalysis :=
  let cards := deck_card_ids.filterMap (get_card_info db)
  { total_cards := deck_card_ids.length
    curve := fun cost => cards.countP (fun c => c.cost == cost)
    roles := fun role => (cards.flatMap Card.roles).count role }

/-- `TwoPickAdvisor.ideal_curve` with its `.get(cost, 1)` default. -/
def ideal_curve (cost : Nat) : ℚ :=
  match cost with
  | 1 => 4 | 2 => 6 | 3 => 6 | 4 => 5 | 5 => 4 | 6 => 2 | 7 => 1 | 8 => 1
  | _ => 1

/-- `TwoPickAdvisor.role_targets` (roles not in the table are skipped). -/
def role_targets (role : String) : Option ℚ :=
  if role = "removal" then some 4
  else if role = "draw" then some 3
  else if role = "finisher" then some 2
  else if role = "protection" then some 3
  else if role = "aoe" then some 2
  else none

/-- `TwoPickAdvisor.calculate_curve_bonus`. -/
def calculate_curve_bonus (card_cost : Nat) (da : DeckAnalysis)
    (pick_index : Nat) : ℚ :=
  let current_count : ℚ := (da.curve card_cost : ℚ)
  let ideal_count : ℚ := ideal_curve card_cost
  let progress : ℚ := (da.total_cards : ℚ) / 30
  let adjusted_target : ℚ := ideal_count * progress
  if current_count < adjusted_target then
    let shortage := adjusted_target - current_count
    let bonus := min (shortage * 8) 15
    if pick_index ≤ 8 ∧ card_cost ≤ 3 then bonus * 1.3 else bonus
  else if adjusted_target * 1.5 < current_count then
    let excess := current_count - adjusted_target;
    -(min (excess * 5) 10)
  else 0

/-- `TwoPickAdvisor.calculate_role_bonus`. -/
def calculate_role_bonus (card_roles : List String) (da : DeckAnalysis) : ℚ :=
  card_roles.foldl
    (fun bonus role =>
      match role_targets role with
      | none => bonus
      | some target_count =>
        let current_count : ℚ := (da.roles role : ℚ)
        if current_count < target_count then
          bonus + min ((target_count - current_count) * 6) 12
        else if target_count * 1.5 ≤ current_count then bonus - 5
        else bonus)
    0

/-- `TwoPickAdvisor.calculate_reroll_threshold`. -/
def calculate_reroll_threshold (pick_index rerolls_left : Nat)
    (da : DeckAnalysis) : ℚ :=
  let base_threshold : ℚ := 60
  let phase_adj : ℚ := if pick_index ≤ 5 then 8 else if pick_index ≤ 10 then 0 else -8
  let reroll_adj : ℚ := min ((rerolls_left : ℚ) * 4) 12
  let urgency_removal : ℚ :=
    if da.roles "removal" = 0 ∧ 8 ≤ pick_index then 10 else 0
  let low_cost := da.curve 1 + da.curve 2
  let urgency_curve : ℚ := if low_cost ≤ 2 ∧ 6 ≤ pick_index then 8 else 0
  max 45 (min 80 (base_threshold + phase_adj + reroll_adj + urgency_removal + urgency_curve))

/-- One entry of the base advisor's `card_scores` list. -/
structure ScoreRow where
  card_id : String
  name : String
  cost : Nat
  base_score : ℚ
  curve_bonus : ℚ
  role_bonus : ℚ
  duplication_penalty : ℚ
  final_score : ℚ
deriving DecidableEq

/-- The `PickAdvice` dataclass (base advisor). -/
structure PickAdvice where
  action : String
  recommended_card_id : Option String
  recommended_card_name : Option String
  confidence : ℚ
  reasoning : List String
  card_scores : List ScoreRow
deriving DecidableEq

/-- `-5 * count` when the candidate already sits in the deck, else 0. -/
def duplication_penalty (card_id : String) (current_deck_ids : List String) : ℚ :=
  if current_deck_ids.contains card_id then
    -5 * (current_deck_ids.count card_id : ℚ)
  else 0

/-- The candidate-scoring loop of `TwoPickAdvisor.get_pick_advice`
(unresolvable candidates are skipped). -/
def scoreCandidates (db : DB) (candidate_card_ids current_deck_ids : List String)
    (pick_index : Nat) : List ScoreRow :=
  let da := analyze_deck db current_deck_ids
  candidate_card_ids.filterMap (fun card_id =>
    match get_card_info db card_id with
    | none => none
    | some card =>
      let base_score := card.base_rating
      let curve_bonus := calculate_curve_bonus card.cost da pick_index
      let role_bonus := calculate_role_bonus card.roles da
      let dup := duplication_penalty card_id current_deck_ids
      some ⟨card_id, card.name, card.cost, base_score, curve_bonus, role_bonus,
            dup, base_score + curve_bonus + role_bonus + dup⟩)

/-- Python `max(card_scores, key=lambda x: x["final_score"])`: the first
row attaining the maximum (a later row replaces only on strict increase). -/
def bestRow (r : ScoreRow) (rs : List ScoreRow) : ScoreRow :=
  rs.foldl (fun b x => if b.final_score < x.final_score then x else b) r

/-- `TwoPickAdvisor.get_pick_advice`. -/
def get_pick_advice (db : DB) (candidate_card_ids current_deck_ids : List String)
    (pick_index rerolls_left : Nat) : PickAdvice :=
  let da := analyze_deck db current_deck_ids
  match scoreCandidates db candidate_card_ids current_deck_ids pick_index with
  | [] => ⟨"pick", none, none, 0, ["評価可能なカードがありません"], []⟩
  | r :: rs =>
    let best_card := bestRow r rs
    let best_score := best_card.final_score
    let threshold := calculate_reroll_threshold pick_index rerolls_left da
    let confidence := min 90 (max 50 (|best_score - 60| + 50))
    if 0 < rerolls_left ∧ best_score < threshold then
      ⟨"reroll", none, none, confidence,
       ["最高スコア" ++ fmt1 best_score ++ "が閾値" ++ fmt1 threshold ++ "を下回るためリロール推奨",
        "残りリロール回数: " ++ toString rerolls_left ++ "回"],
       r :: rs⟩
    else
      ⟨"pick", some best_card.card_id, some best_card.name, confidence,
       [best_card.name ++ "を推奨（スコア: " ++ fmt1 best_score ++ "）"] ++
         (if 0 < best_card.curve_bonus then
            ["マナカーブ改善効果: +" ++ fmt1 best_card.curve_bonus] else []) ++
         (if 0 < best_card.role_bonus then
            ["役割補完効果: +" ++ fmt1 best_card.role_bonus] else []),
       r :: rs⟩

/-! ### The pattern language of synergy_engine.py / archetype_analyzer.py

The regexes used by the two engines are built from literal characters,
`.*`, `\d+`, one character range `[2-4]` and the escape `\+`.  They are
compiled verbatim below; `re.search(p, t, re.IGNORECASE)` is
`reSearchS p t`. -/

/-- One atom of a compiled pattern. -/
inductive RAtom where
  | ch (c : Char)
  | star
  | digitsPlus
  | range (lo hi : Char)

/-- A compiled pattern: a sequence of atoms. -/
abbrev Pat := List RAtom

/-- The atoms of a literal regex fragment. -/
def plit (s : String) : Pat := s.data.map RAtom.ch

/-- Case-insensitive character comparison (`re.IGNORECASE`; only ASCII
letters are affected). -/
def charEqCI (a b : Char) : Bool := a.toLower == b.toLower

/-- Backtracking matcher with explicit fuel, structurally recursive so
that it evaluates inside the kernel.  Every recursive call strictly
decreases `ps.length + cs.length`, so any fuel above that sum never runs
out. -/
def rmatchF : Nat → Pat → List Char → Bool
  | 0, _, _ => false
  | _ + 1, [], _ => true
  | _ + 1, .ch _ :: _, [] => false
  | fuel + 1, .ch c :: ps, d :: cs => charEqCI d c && rmatchF fuel ps cs
  | _ + 1, .range _ _ :: _, [] => false
  | fuel + 1, .range lo hi :: ps, d :: cs => (lo ≤ d && d ≤ hi) && rmatchF fuel ps cs
  | fuel + 1, .star :: ps, [] => rmatchF fuel ps []
  | fuel + 1, .star :: ps, d :: cs =>
      rmatchF fuel ps (d :: cs) || rmatchF fuel (.star :: ps) cs
  | _ + 1, .digitsPlus :: _, [] => false
  | fuel + 1, .digitsPlus :: ps, d :: cs =>
      d.isDigit && (rmatchF fuel ps cs || rmatchF fuel (.digitsPlus :: ps) cs)

/-- Match a pattern against a prefix of the text (trailing text is free,
as under `re.search`); `.*` and `\d+` backtrack. -/
def rmatch (ps : Pat) (cs : List Char) : Bool :=
  rmatchF (ps.length + cs.length + 1) ps cs

/-- `re.search`: match starting at any position of the text. -/
def reSearch (p : Pat) : List Char → Bool
  | [] => rmatch p []
  | d :: cs => rmatch p (d :: cs) || reSearch p cs

/-- `re.search(pattern, s, re.IGNORECASE)` on a string. -/
def reSearchS (p : Pat) (s : String) : Bool := reSearch p s.data

/-! ### synergy_engine.py -/

/-- The `SynergyRule` dataclass (patterns pre-compiled). -/
structure SynergyRule where
  name : String
  enabler_patterns : List Pat
  payoff_patterns : List Pat
  min_threshold : Nat
  max_bonus : ℚ
  bonus_per_card : ℚ

/-- `SynergyEngine._initialize_synergy_rules`, keyed by class id with the
`.get(class_id, [])` default. -/
def synergy_rules (class_id : Nat) : List SynergyRule :=
  match class_id with
  | 0 =>
    [⟨"エンハンス", [plit "エンハンス"], [plit "エンハンス"], 2, 8, 2⟩,
     ⟨"守護", [plit "守護"], [plit "守護"], 2, 6, 1.5⟩]
  | 1 =>
    [⟨"フェアリー", [plit "フェアリー" ++ [.star] ++ plit "手札",
                     plit "フェアリー" ++ [.star] ++ plit "場"],
       [plit "フェアリー", plit "手札" ++ [.star] ++ plit "枚" ++ [.star] ++ plit "以上"],
       3, 12, 3⟩,
     ⟨"コンボ", [plit "コンボ"], [plit "コンボ_" ++ [.digitsPlus]], 2, 15, 4⟩,
     ⟨"自然", [plit "ナチュラ"], [plit "ナチュラ"], 2, 10, 3⟩]
  | 2 =>
    [⟨"兵士", [plit "兵士" ++ [.star] ++ plit "場"],
       [plit "兵士" ++ [.star] ++ plit "フォロワー"], 3, 12, 2.5⟩,
     ⟨"指揮官", [plit "指揮官"], [plit "指揮官"], 2, 8, 2⟩,
     ⟨"連携", [plit "連携"], [plit "連携"], 2, 10, 3⟩]
  | 3 =>
    [⟨"スペルブースト", [plit "スペル"], [plit "スペルブースト"], 4, 18, 3.5⟩,
     ⟨"土の印", [plit "土の印" ++ [.star] ++ [.ch '+']],
       [plit "土の秘術", plit "土の印" ++ [.star] ++ plit "消費"], 3, 15, 4⟩,
     ⟨"知恵の光", [plit "知恵の光"], [plit "知恵の光"], 2, 6, 2⟩]
  | 4 =>
    [⟨"覚醒", [plit "PP" ++ [.star] ++ plit "増", plit "PP" ++ [.star] ++ plit "回復"],
       [plit "覚醒"], 2, 12, 4⟩,
     ⟨"竜族", [plit "ドラゴン" ++ [.star] ++ plit "フォロワー"],
       [plit "ドラゴン" ++ [.star] ++ plit "フォロワー"], 3, 10, 2.5⟩]
  | 5 =>
    [⟨"ネクロマンス", [plit "墓場"], [plit "ネクロマンス"], 4, 15, 3⟩,
     ⟨"ラストワード", [plit "ラストワード"], [plit "ラストワード"], 3, 10, 2.5⟩,
     ⟨"リアニメイト", [plit "リアニメイト"], [plit "リアニメイト"], 2, 12, 4⟩]
  | 6 =>
    [⟨"カウントダウン", [plit "カウントダウン"], [plit "カウントダウン"], 2, 10, 3⟩,
     ⟨"守護", [plit "守護"], [plit "守護"], 3, 12, 2⟩,
     ⟨"回復", [plit "回復"], [plit "回復"], 2, 6, 1.5⟩]
  | 7 =>
    [⟨"アーティファクト", [plit "アーティファクト" ++ [.star] ++ plit "手札",
                           plit "アーティファクト" ++ [.star] ++ plit "場"],
       [plit "アーティファクト"], 3, 15, 3.5⟩,
     ⟨"融合", [plit "融合"], [plit "融合"], 2, 12, 4⟩,
     ⟨"共鳴", [plit "共鳴"], [plit "共鳴"], 2, 8, 3⟩]
  | _ => []

/-- The per-rule tallies stored in the `synergy_counts` dict. -/
structure SynergyData where
  enablers : Nat
  payoffs : Nat
  total : Nat
deriving DecidableEq

/-- The result dict of `analyze_deck_synergies`. -/
structure DeckSynergies where
  synergies : Dict String SynergyData
  class_distribution : Dict Nat Nat
  synergy_score : ℚ
  main_class : Nat

/-- `class_counts[k] = class_counts.get(k, 0) + 1`. -/
def bumpCount (acc : Dict Nat Nat) (k : Nat) : Dict Nat Nat :=
  dictSet acc k (dictGetD acc k 0 + 1)

/-- Python `max(keys, key=lambda x: counts[x])` over an insertion-ordered
dict: the first key attaining the maximal count (`0` on an empty dict, per
the `if class_counts else 0` guard). -/
def mainClassOf (counts : Dict Nat Nat) : Nat :=
  match counts with
  | [] => 0
  | kv :: rest => (rest.foldl (fun b x => if b.2 < x.2 then x else b) kv).1

/-- Does `c`'s combined text match any pattern of `pats`?  (The source's
inner loop `break`s at the first matching pattern, so each card counts
once.) -/
def matchesAny (pats : List Pat) (c : Card) : Bool :=
  pats.any (fun p => reSearchS p (fullText c))

/-- `SynergyEngine.analyze_deck_synergies`. -/
def analyze_deck_synergies (db : DB) (card_ids : List String) : DeckSynergies :=
  if card_ids.isEmpty then ⟨[], [], 0, 0⟩
  else
    let cards := card_ids.filterMap (get_card_info db)
    let class_counts := cards.foldl (fun acc c => bumpCount acc c.class_id) []
    let main_class := mainClassOf class_counts
    let synergy_counts :=
      (synergy_rules main_class ++ synergy_rules 0).foldl
        (fun acc rule =>
          let enabler_count := cards.countP (matchesAny rule.enabler_patterns)
          let payoff_count := cards.countP (matchesAny rule.payoff_patterns)
          if 0 < enabler_count || 0 < payoff_count then
            dictSet acc rule.name ⟨enabler_count, payoff_count, enabler_count + payoff_count⟩
          else acc)
        []
    let total_synergy_score :=
      (synergy_counts.map (fun kv => min ((kv.2.total : ℚ) * 2) 10)).sum
    ⟨synergy_counts, class_counts, total_synergy_score, main_class⟩

/-- The rule list iterated by `calculate_synergy_bonus` (a list
concatenation: a rule present in more than one of the three slots occurs
more than once). -/
def applicableRules (candidate_class main_class : Nat) : List SynergyRule :=
  synergy_rules candidate_class ++ synergy_rules main_class ++ synergy_rules 0

/-- The payoff-branch bonus before the phase modifier:
`min(enablers * bonus_per_card, max_bonus)`. -/
def payoffRawBonus (rule : SynergyRule) (data : SynergyData) : ℚ :=
  min ((data.enablers : ℚ) * rule.bonus_per_card) rule.max_bonus

/-- The enabler-branch bonus before the phase modifier:
`min(payoffs * (bonus_per_card * 0.7), max_bonus * 0.6)`. -/
def enablerRawBonus (rule : SynergyRule) (data : SynergyData) : ℚ :=
  min ((data.payoffs : ℚ) * (rule.bonus_per_card * 0.7)) (rule.max_bonus * 0.6)

/-- The body of the rule loop in `calculate_synergy_bonus`: fold one rule
into the running `(total_bonus, reasons)` pair. -/
def synergyRuleStep (deck_synergies : DeckSynergies) (candidate_text : String)
    (pick_index : Nat) (acc : ℚ × List String) (rule : SynergyRule) :
    ℚ × List String :=
  match dictGet deck_synergies.synergies rule.name with
  | none => acc
  | some data =>
    let is_enabler := rule.enabler_patterns.any (fun p => reSearchS p candidate_text)
    let is_payoff := rule.payoff_patterns.any (fun p => reSearchS p candidate_text)
    if is_payoff && decide (rule.min_threshold ≤ data.enablers) then
      let phase_modifier : ℚ := if pick_index ≤ 10 then 1 else 0.8
      let bonus := payoffRawBonus rule data * phase_modifier
      (acc.1 + bonus,
       acc.2 ++ [rule.name ++ "活用 (+" ++ fmt1 bonus ++ "点, 基盤"
                 ++ toString data.enablers ++ "枚)"])
    else if is_enabler && decide (0 < data.payoffs) then
      let phase_modifier : ℚ :=
        if pick_index ≤ 6 then 1.2 else if pick_index ≤ 10 then 1 else 0.6
      let bonus := enablerRawBonus rule data * phase_modifier
      (acc.1 + bonus, acc.2 ++ [rule.name ++ "基盤強化 (+" ++ fmt1 bonus ++ "点)"])
    else acc

/-- `SynergyEngine.calculate_synergy_bonus`. -/
def calculate_synergy_bonus (db : DB) (candidate_card_id : String)
    (deck_card_ids : List String) (pick_index : Nat) : ℚ × List String :=
  if deck_card_ids.isEmpty then (0, [])
  else
    let deck_synergies := analyze_deck_synergies db deck_card_ids
    match get_card_info db candidate_card_id with
    | none => (0, [])
    | some candidate =>
      let candidate_text := fullText candidate
      let acc :=
        (applicableRules candidate.class_id deck_synergies.main_class).foldl
          (synergyRuleStep deck_synergies candidate_text pick_index) (0, [])
      (round1 acc.1, acc.2)

/-! ### archetype_analyzer.py -/

/-- The `Archetype` dataclass (patterns pre-compiled). -/
structure Archetype where
  name : String
  class_id : Nat
  key_patterns : List Pat
  ideal_curve : Dict Nat Nat
  strategy_description : String
  min_cards_threshold : Nat

/-- `ArchetypeAnalyzer._initialize_archetypes`. -/
def archetypes : List Archetype :=
  [⟨"フェアリーテンポ", 1, [plit "フェアリー", plit "コンボ_" ++ [.range '2' '4']],
    [(1, 4), (2, 6), (3, 5), (4, 4), (5, 3)], "フェアリーを活用した序中盤制圧", 4⟩,
   ⟨"兵士展開", 2, [plit "兵士", plit "指揮官", plit "連携"],
    [(1, 3), (2, 7), (3, 6), (4, 4), (5, 3)], "兵士シナジーによる盤面制圧", 5⟩,
   ⟨"スペルブースト", 3, [plit "スペルブースト", plit "スペル"],
    [(1, 3), (2, 4), (3, 5), (4, 6), (5, 5)], "スペルでブーストし大型展開", 6⟩,
   ⟨"土の秘術", 3, [plit "土の印", plit "土の秘術"],
    [(1, 4), (2, 6), (3, 5), (4, 4), (5, 3)], "土の印を活用した除去制圧", 4⟩,
   ⟨"ランプ", 4, [plit "PP" ++ [.star] ++ plit "増",
                  plit "PP" ++ [.star] ++ plit "回復", plit "覚醒"],
    [(1, 2), (2, 4), (3, 3), (4, 4), (5, 5), (6, 4)], "PPブーストから大型展開", 3⟩,
   ⟨"ネクロマンス", 5, [plit "ネクロマンス", plit "墓場"],
    [(1, 4), (2, 5), (3, 5), (4, 4), (5, 4)], "墓場活用による後半戦略", 4⟩,
   ⟨"守護回復", 6, [plit "守護", plit "回復", plit "カウントダウン"],
    [(1, 3), (2, 5), (3, 4), (4, 5), (5, 4)], "守護と回復による長期戦略", 5⟩,
   ⟨"アーティファクト", 7, [plit "アーティファクト", plit "融合"],
    [(1, 3), (2, 4), (3, 5), (4, 5), (5, 4)], "アーティファクト生成・活用", 4⟩]

/-- The result dict of `analyze_deck_archetype` (the early-return dicts
omit the `archetype_description` key; here that key is `none`). -/
structure ArchetypeAnalysis where
  detected_archetype : Option String
  archetype_description : Option String
  confidence : ℚ
  recommendations : List String

/-- `ArchetypeAnalyzer._generate_recommendations`. -/
def generate_recommendations (cards : List Card) (arch : Option Archetype) :
    List String :=
  match arch with
  | none => ["明確なアーキタイプが検出されませんでした。バランス型を目指しましょう。"]
  | some a =>
    let current_curve := cards.foldl (fun acc c => bumpCount acc (min c.cost 6)) []
    ["戦略: " ++ a.strategy_description] ++
      a.ideal_curve.filterMap (fun kv =>
        let current_count := dictGetD current_curve kv.1 0
        if (current_count : ℚ) < (kv.2 : ℚ) * 0.7 then
          some (toString kv.1 ++ "コストを増やしましょう（現在" ++ toString current_count
                ++ "枚、理想" ++ toString kv.2 ++ "枚）")
        else none)

/-- `ArchetypeAnalyzer.analyze_deck_archetype`.  The candidate loop keeps
`(best_archetype, best_score)`, replacing only when the archetype
qualifies (`matching ≥ min_cards_threshold`) and strictly beats the
running score (`score += 2` per matching card). -/
def analyze_deck_archetype (db : DB) (card_ids : List String) : ArchetypeAnalysis :=
  if card_ids.isEmpty then ⟨none, none, 0, []⟩
  else
    let cards := card_ids.filterMap (get_card_info db)
    if cards.isEmpty then ⟨none, none, 0, []⟩
    else
      let class_counts := cards.foldl (fun acc c => bumpCount acc c.class_id) []
      let main_class := mainClassOf class_counts
      let best :=
        archetypes.foldl
          (fun (best : Option Archetype × ℚ) a =>
            if a.class_id ≠ main_class then best
            else
              let matching_cards := cards.countP (matchesAny a.key_patterns)
              let score : ℚ := 2 * (matching_cards : ℚ)
              if a.min_cards_threshold ≤ matching_cards ∧ best.2 < score then
                (some a, score)
              else best)
          (none, 0)
      let recommendations := generate_recommendations cards best.1
      let confidence : ℚ :=
        match best.1 with
        | some _ => min 90 (best.2 * 8)
        | none => 0
      ⟨best.1.map Archetype.name, best.1.map Archetype.strategy_description,
       confidence, recommendations⟩

/-- `ArchetypeAnalyzer.calculate_archetype_bonus` (the pattern loop
`break`s after the first hit, so the bonus is 8.0 at most once). -/
def calculate_archetype_bonus (db : DB) (candidate_card_id : String)
    (deck_card_ids : List String) : ℚ × List String :=
  if deck_card_ids.isEmpty then (0, [])
  else
    let archetype_analysis := analyze_deck_archetype db deck_card_ids
    match archetype_analysis.detected_archetype with
    | none => (0, [])
    | some detected =>
      match get_card_info db candidate_card_id with
      | none => (0, [])
      | some candidate =>
        match archetypes.find? (fun a => a.name == detected) with
        | none => (0, [])
        | some archetype =>
          if matchesAny archetype.key_patterns candidate then
            (round1 8, [detected ++ "キーカード (+8.0点)"])
          else (0, [])

/-! ### enhanced_advisor.py -/

/-- The meta-adjustment tables.  `meta_adjustments.py` is not part of the
scored sources; the shape is fixed by `_calculate_meta_bonus`'s reads
(`.get('card_id', {})` etc.), and the embedded functions are parametric in
the table contents. -/
structure MetaAdjustments where
  card_id : Dict String ℚ
  archetype : Dict String ℚ
  class_name : Dict String ℚ

/-- The `class_mapping` dict of `get_pick_advice_enhanced` with its
`.get(main_class_id, "Neutral")` default. -/
def class_mapping (class_id : Nat) : String :=
  match class_id with
  | 0 => "Neutral" | 1 => "Elf" | 2 => "Royal" | 3 => "Witch"
  | 4 => "Dragon" | 5 => "Nightmare" | 6 => "Bishop" | 7 => "Nemesis"
  | _ => "Neutral"

/-- `EnhancedTwoPickAdvisor._calculate_meta_bonus`. -/
def calculate_meta_bonus (ma : MetaAdjustments) (card : Card)
    (detected_archetype : Option String) (deck_class_name : String) : ℚ :=
  let b1 := dictGetD ma.card_id card.card_id 0
  let b2 :=
    match detected_archetype with
    | some a => dictGetD ma.archetype a 0
    | none => 0
  let b3 :=
    if card.class_name == deck_class_name && (dictGet ma.class_name card.class_name).isSome then
      dictGetD ma.class_name card.class_name 0
    else if card.class_name == "Neutral" && (dictGet ma.class_name deck_class_name).isSome then
      dictGetD ma.class_name deck_class_name 0 * 0.5
    else 0
  round1 (b1 + b2 + b3)

/-- One entry of the enhanced advisor's `card_scores` list. -/
structure EScoreRow where
  card_id : String
  name : String
  cost : Nat
  base_score : ℚ
  curve_bonus : ℚ
  role_bonus : ℚ
  duplication_penalty : ℚ
  synergy_bonus : ℚ
  archetype_bonus : ℚ
  meta_bonus : ℚ
  final_score : ℚ
  synergy_reasons : List String
  archetype_reasons : List String
deriving DecidableEq

/-- The enhanced advisor's `PickAdvice` (same dataclass, richer rows). -/
structure EPickAdvice where
  action : String
  recommended_card_id : Option String
  recommended_card_name : Option String
  confidence : ℚ
  reasoning : List String
  card_scores : List EScoreRow
deriving DecidableEq

/-- The candidate-scoring loop of `get_pick_advice_enhanced`. -/
def eScoreCandidates (db : DB) (ma : MetaAdjustments) (weights : Dict String ℚ)
    (candidate_card_ids current_deck_ids : List String) (pick_index : Nat) :
    List EScoreRow :=
  let da := analyze_deck db current_deck_ids
  let synergy_analysis := analyze_deck_synergies db current_deck_ids
  let archetype_analysis := analyze_deck_archetype db current_deck_ids
  let deck_class_name := class_mapping synergy_analysis.main_class
  let detected_archetype := archetype_analysis.detected_archetype
  candidate_card_ids.filterMap (fun card_id =>
    match get_card_info db card_id with
    | none => none
    | some card =>
      let base_score := card.base_rating
      let curve_bonus := calculate_curve_bonus card.cost da pick_index
      let role_bonus := calculate_role_bonus card.roles da
      let dup := duplication_penalty card_id current_deck_ids
      let syn := calculate_synergy_bonus db card_id current_deck_ids pick_index
      let arch := calculate_archetype_bonus db card_id current_deck_ids
      let meta_bonus := calculate_meta_bonus ma card detected_archetype deck_class_name
      let final_score :=
        dictGetD weights "base" 1 * base_score +
        dictGetD weights "curve" 1 * curve_bonus +
        dictGetD weights "role" 1 * role_bonus +
        dictGetD weights "duplication" 1 * dup +
        dictGetD weights "synergy" 1 * syn.1 +
        dictGetD weights "archetype" 1 * arch.1 +
        dictGetD weights "meta" 1 * meta_bonus
      some ⟨card_id, card.name, card.cost, base_score, curve_bonus, role_bonus,
            dup, syn.1, arch.1, meta_bonus, final_score, syn.2, arch.2⟩)

/-- Python `max` over the enhanced rows (first row attaining the maximum). -/
def eBestRow (r : EScoreRow) (rs : List EScoreRow) : EScoreRow :=
  rs.foldl (fun b x => if b.final_score < x.final_score then x else b) r

/-- The per-bonus explanation lines of the enhanced pick branch. -/
def eBonusReasons (best_card : EScoreRow) : List String :=
  (if 0 < best_card.curve_bonus then
     ["マナカーブ改善: +" ++ fmt1 best_card.curve_bonus] else []) ++
  (if 0 < best_card.role_bonus then
     ["役割補完: +" ++ fmt1 best_card.role_bonus] else []) ++
  (if 0 < best_card.synergy_bonus then
     ["シナジー効果: +" ++ fmt1 best_card.synergy_bonus] ++
       (best_card.synergy_reasons.take 2).map (fun reason => "  - " ++ reason)
   else []) ++
  (if 0 < best_card.archetype_bonus then
     ["アーキタイプ適合: +" ++ fmt1 best_card.archetype_bonus] ++
       (best_card.archetype_reasons.take 1).map (fun reason => "  - " ++ reason)
   else []) ++
  (if best_card.meta_bonus ≠ 0 then
     ["メタ環境調整: " ++ fmt1 best_card.meta_bonus] else [])

/-- `EnhancedTwoPickAdvisor.get_pick_advice_enhanced`. -/
def get_pick_advice_enhanced (db : DB) (ma : MetaAdjustments)
    (weights : Dict String ℚ)
    (candidate_card_ids current_deck_ids : List String)
    (pick_index rerolls_left : Nat) : EPickAdvice :=
  let da := analyze_deck db current_deck_ids
  match eScoreCandidates db ma weights candidate_card_ids current_deck_ids pick_index with
  | [] => ⟨"pick", none, none, 0, ["評価可能なカードがありません"], []⟩
  | r :: rs =>
    let best_card := eBestRow r rs
    let best_score := best_card.final_score
    let threshold := calculate_reroll_threshold pick_index rerolls_left da
    let confidence := min 95 (max 50 (|best_score - 60| + 50))
    if 0 < rerolls_left ∧ best_score < threshold then
      ⟨"reroll", none, none, confidence,
       ["最高スコア" ++ fmt1 best_score ++ "が閾値" ++ fmt1 threshold ++ "を下回るためリロール推奨",
        "残りリロール回数: " ++ toString rerolls_left ++ "回"],
       r :: rs⟩
    else
      ⟨"pick", some best_card.card_id, some best_card.name, confidence,
       [best_card.name ++ "を推奨（スコア: " ++ fmt1 best_score ++ "）"] ++
         eBonusReasons best_card,
       r :: rs⟩

/-! ### Concrete instances used by counterexamples and witnesses -/

/-- A Royal candidate whose text mentions 連携. -/
def rengekiCandidate : Card :=
  ⟨"c1", "連携候補", 2, "Royal", 3, "follower", some 2, some 2, [], [], "連携", "", 60⟩

/-- A Royal deck card whose text mentions 連携. -/
def rengekiDeck1 : Card :=
  ⟨"d1", "連携1", 2, "Royal", 2, "follower", some 2, some 2, [], [], "連携", "", 60⟩

/-- A second Royal deck card whose text mentions 連携. -/
def rengekiDeck2 : Card :=
  ⟨"d2", "連携2", 2, "Royal", 4, "follower", some 2, some 2, [], [], "連携", "", 60⟩

/-- A three-card database of Royal 連携 cards. -/
def rengekiDB : DB := [rengekiCandidate, rengekiDeck1, rengekiDeck2]

/-- A weak card: `base_rating` 15, no roles, empty text. -/
def weakCard : Card :=
  ⟨"lc", "弱カード", 2, "Royal", 3, "follower", some 1, some 1, [], [], "", "", 15⟩

/-- A one-card database holding `weakCard`. -/
def weakDB : DB := [weakCard]

/-- The base-advisor score row `weakCard` produces against an empty deck. -/
def weakRow : ScoreRow := ⟨"lc", "弱カード", 3, 15, 0, 0, 0, 15⟩

/-- The enhanced-advisor score row `weakCard` produces against an empty deck. -/
def weakERow : EScoreRow := ⟨"lc", "弱カード", 3, 15, 0, 0, 0, 0, 0, 0, 15, [], []⟩

/-- Empty meta-adjustment tables. -/
def emptyMeta : MetaAdjustments := ⟨[], [], []⟩

/-- A deck analysis of a 15-card deck whose cards all cost 5. -/
def heavyAnalysis : DeckAnalysis :=
  ⟨15, fun c => if c = 5 then 15 else 0, fun _ => 0⟩

/-- The empty deck analysis. -/
def emptyAnalysis : DeckAnalysis := ⟨0, fun _ => 0, fun _ => 0⟩

/-- A score entry with id `a` (all components neutral). -/
def entryA : ScoreEntry := ⟨"a", 50, 0, 0, 0, 0, 0, 0⟩

/-- A score entry with id `b`. -/
def entryB : ScoreEntry := ⟨"b", 48, 0, 0, 0, 0, 0, 0⟩

/-- A pick-log state with exactly one qualifying training example. -/
def oneExampleLogs : List PickLogRow := [⟨"a", [entryA, entryB], "a"⟩]

/-- A trivial regression solver (never consulted on the paths the claims
exercise). -/
def trivialSolver : List TrainingSample → Option (Dict String ℚ) := fun _ => none

/-- A custom weight mapping over the seven factors. -/
def customWeights : Dict String ℚ :=
  [("base", 1.2), ("curve", 0.8), ("role", 1.5), ("duplication", 2),
   ("synergy", 0.5), ("archetype", 1.1), ("meta", 0.9)]

/-- A follower with attack 0 and defense 1 (both stats present). -/
def zeroAttackFollower : Card :=
  ⟨"z", "壁", 6, "Bishop", 1, "follower", some 0, some 1, [], [], "", "", 40⟩

/-- A vanilla 3/3 follower of cost 2. -/
def vanilla33 : Card :=
  ⟨"v", "バニラ", 2, "Royal", 2, "follower", some 3, some 3, [], [], "", "", 64⟩

/-- A spell card (no stats). -/
def spellCard : Card :=
  ⟨"s", "スペル", 3, "Witch", 2, "spell", none, none, [], [], "ドロー", "", 55⟩

/-! ## Dictionary lemmas -/

theorem dictGet_dictSet {κ α : Type} [BEq κ] [LawfulBEq κ]
    (d : Dict κ α) (k : κ) (v : α) (k₂ : κ) :
    dictGet (dictSet d k v) k₂ = if k == k₂ then some v else dictGet d k₂ := by
  induction d with
  | nil => simp [dictSet, dictGet]
  | cons kv rest ih =>
    obtain ⟨k₁, v₁⟩ := kv
    by_cases h : k₁ = k
    · subst h
      by_cases h2 : k₁ = k₂
      · subst h2
        simp [dictSet, dictGet]
      · simp [dictSet, dictGet, h2]
    · by_cases h2 : k₁ = k₂
      · subst h2
        have h3 : ¬ (k = k₁) := fun e => h e.symm
        simp [dictSet, dictGet, h, h3]
      · simp [dictSet, dictGet, h, h2, ih]

theorem dictGet_eq_none_of_not_any {κ α : Type} [BEq κ] [LawfulBEq κ]
    (d : Dict κ α) (k : κ) (h : d.any (fun kv => kv.1 == k) = false) :
    dictGet d k = none := by
  induction d with
  | nil => rfl
  | cons kv rest ih =>
    simp only [List.any_cons, Bool.or_eq_false_iff] at h
    simp [dictGet, h.1, ih h.2]

theorem dictGet_dictUpdate {κ α : Type} [BEq κ] [LawfulBEq κ]
    (w : Dict κ α) (d : Dict κ α) (hw : noDupKeys w = true) (k : κ) :
    dictGet (dictUpdate d w) k =
      match dictGet w k with
      | some v => some v
      | none => dictGet d k := by
  induction w generalizing d with
  | nil => simp [dictUpdate, dictGet]
  | cons kv rest ih =>
    obtain ⟨k₁, v₁⟩ := kv
    simp only [noDupKeys, Bool.and_eq_true, Bool.not_eq_true'] at hw
    have step : dictUpdate d ((k₁, v₁) :: rest) = dictUpdate (dictSet d k₁ v₁) rest := rfl
    rw [step, ih _ hw.2]
    by_cases h : k₁ == k
    · have hk : k₁ = k := eq_of_beq h
      subst hk
      have hrest : dictGet rest k₁ = none := dictGet_eq_none_of_not_any rest k₁ hw.1
      simp [dictGet, h, hrest, dictGet_dictSet]
    · simp only [dictGet, h, if_false, Bool.false_eq_true]
      cases hr : dictGet rest k with
      | some v => simp
      | none => simp [dictGet_dictSet, h]

/-- Under `keysSubB`, a key absent from `w` is absent from `d`. -/
theorem dictGet_none_of_keysSubB {κ α : Type} [BEq κ] [LawfulBEq κ]
    (d w : Dict κ α) (hsub : keysSubB d w = true) (k : κ)
    (hk : dictGet w k = none) : dictGet d k = none := by
  induction d with
  | nil => rfl
  | cons kv rest ih =>
    obtain ⟨k₁, v₁⟩ := kv
    simp only [keysSubB, List.all_cons, Bool.and_eq_true] at hsub
    by_cases h : k₁ == k
    · have : k₁ = k := eq_of_beq h
      subst this
      rw [hk] at hsub
      simp at hsub
    · simp only [dictGet, h, if_false, Bool.false_eq_true]
      exact ih hsub.2

/-! ## Claim theorems -/

/-- C1: for every database, candidate list, deck and pick index, both
`get_pick_advice` and `get_pick_advice_enhanced` called with
`rerolls_left = 0` never return an advice whose action is `"reroll"`:
`should_reroll` requires `rerolls_left > 0`. -/
theorem no_reroll_with_zero_rerolls (db : DB) (ma : MetaAdjustments)
    (w : Dict String ℚ) (cands deck : List String) (pick : Nat) :
    (get_pick_advice db cands deck pick 0).action ≠ "reroll" ∧
    (get_pick_advice_enhanced db ma w cands deck pick 0).action ≠ "reroll" := by
  constructor
  · cases h : scoreCandidates db cands deck pick with
    | nil => simp [get_pick_advice, h]
    | cons r rs => simp [get_pick_advice, h]
  · cases h : eScoreCandidates db ma w cands deck pick with
    | nil => simp [get_pick_advice_enhanced, h]
    | cons r rs => simp [get_pick_advice_enhanced, h]

/-- C2 (amended): the rule list iterated by `calculate_synergy_bonus` is
the list concatenation — not the union — of the rules for the candidate's
class, the deck's main class, and neutral, so a rule can occur (and
contribute) more than once; each single occurrence contributes at most
`max_bonus` (payoff branch) or `max_bonus × 0.6` (enabler branch) before
phase modifiers. -/
theorem synergy_rule_bonus_structure :
    (∀ (rule : SynergyRule) (data : SynergyData),
        payoffRawBonus rule data ≤ rule.max_bonus ∧
        enablerRawBonus rule data ≤ rule.max_bonus * 0.6) ∧
    (∀ candidate_class main_class,
        applicableRules candidate_class main_class =
          synergy_rules candidate_class ++ synergy_rules main_class ++ synergy_rules 0) ∧
    (applicableRules 2 2).countP (fun r => r.name == "連携") = 2 :=
  ⟨fun _ _ => ⟨min_le_right _ _, min_le_right _ _⟩, fun _ _ => rfl, by decide⟩

/-- C2 counterexample: a Royal candidate in an all-Royal deck has the 連携
rule (max_bonus 10) occur twice in the applicable rule list, and the deck
data is recorded only for that rule; the total bonus attributed to it is
12 > 10 even though `pick_index = 5` keeps the phase modifier at 1. -/
theorem synergy_rule_double_count :
    ((synergy_rules 2).find? (fun r => r.name == "連携")).map SynergyRule.max_bonus =
      some 10 ∧
    (analyze_deck_synergies rengekiDB ["d1", "d2"]).synergies = [("連携", ⟨2, 2, 4⟩)] ∧
    (calculate_synergy_bonus rengekiDB "c1" ["d1", "d2"] 5).1 = 12 ∧
    (calculate_synergy_bonus rengekiDB "c1" ["d1", "d2"] 5).2.length = 2 ∧
    ¬ ((12 : ℚ) ≤ 10) := by
  refine ⟨by decide, by decide, ?_, by decide, by decide⟩
  norm_num +decide [calculate_synergy_bonus, analyze_deck_synergies, applicableRules,
    synergyRuleStep, synergy_rules, get_card_info, rengekiDB, rengekiCandidate,
    rengekiDeck1, rengekiDeck2, fullText, dictGet, dictSet, dictGetD, bumpCount,
    mainClassOf, payoffRawBonus, enablerRawBonus, round1,
    List.filterMap_cons, List.countP_cons, List.countP_nil, List.find?_cons,
    List.foldl_cons]

/-- C3 (amended): whenever the pick logs yield 4 or fewer qualifying
training examples, `train_and_update` leaves the stored weights unchanged
(as observed through `dictGet`), but it reports `success = false` only
when there are zero examples; with 1–4 examples it reports
`success = true` while still not changing any weight. -/
theorem train_few_examples_weights_unchanged
    (solver : List TrainingSample → Option (Dict String ℚ))
    (logs : List PickLogRow) (st : Dict String ℚ)
    (hn : noDupKeys st = true)
    (h : (collect_training_data logs).length ≤ 4) :
    (∀ k, dictGet (train_and_update solver logs st).2 k = dictGet st k) ∧
    ((train_and_update solver logs st).1.success = false ↔
      collect_training_data logs = []) := by
  by_cases hd : (collect_training_data logs).isEmpty
  · have he : collect_training_data logs = [] := by
      cases hl : collect_training_data logs with
      | nil => rfl
      | cons a l => rw [hl] at hd; simp at hd
    constructor
    · intro k
      simp [train_and_update, hd]
    · simp [train_and_update, hd, he]
  · have hne : collect_training_data logs ≠ [] := by
      intro e
      rw [e] at hd
      simp at hd
    have hlt : (collect_training_data logs).length < 5 := lt_of_le_of_lt h (by norm_num)
    have hopt : optimize_weights solver st (collect_training_data logs) = st := by
      simp [optimize_weights, hd, hlt, get_weights]
    constructor
    · intro k
      have hst : (train_and_update solver logs st).2 = dictUpdate st st := by
        simp [train_and_update, hd, update_weights, hopt]
      rw [hst, dictGet_dictUpdate st st hn k]
      cases hs : dictGet st k <;> simp
    · have hsucc : (train_and_update solver logs st).1.success = true := by
        simp [train_and_update, hd]
      simp [hsucc, hne]

/-- C3 witness: on a log state with exactly one qualifying example and the
default weights, the `"base"` weight is unchanged, and the `success` flag
is `false` exactly when the example list is empty (here it is not). -/
theorem train_few_examples_weights_unchanged_witness :
    dictGet (train_and_update trivialSolver oneExampleLogs DEFAULT_WEIGHTS).2 "base" =
      dictGet DEFAULT_WEIGHTS "base" ∧
    ((train_and_update trivialSolver oneExampleLogs DEFAULT_WEIGHTS).1.success = false ↔
      collect_training_data oneExampleLogs = []) :=
  ⟨(train_few_examples_weights_unchanged trivialSolver oneExampleLogs DEFAULT_WEIGHTS
      (by decide) (by decide)).1 "base",
   (train_few_examples_weights_unchanged trivialSolver oneExampleLogs DEFAULT_WEIGHTS
      (by decide) (by decide)).2⟩

/-- C3 counterexample: a pick-log state yielding exactly one qualifying
training example (4 or fewer) makes `train_and_update` report
`success = true`, not `success = false` as claimed. -/
theorem train_few_examples_success_true :
    (collect_training_data oneExampleLogs).length = 1 ∧
    (train_and_update trivialSolver oneExampleLogs DEFAULT_WEIGHTS).1.success = true :=
  ⟨by decide, by decide⟩

/-- C4 (amended): whenever at least one candidate is scored, the returned
confidence equals `|bestScore − 60| + 50` clamped to `[50, 90]` for the
base advisor and to `[50, 95]` for the enhanced advisor. -/
theorem confidence_clamp_values (db : DB) (ma : MetaAdjustments)
    (w : Dict String ℚ) (cands deck : List String) (pick rr : Nat) :
    (∀ r rs, (get_pick_advice db cands deck pick rr).card_scores = r :: rs →
      (get_pick_advice db cands deck pick rr).confidence =
        min 90 (max 50 (|(bestRow r rs).final_score - 60| + 50))) ∧
    (∀ r rs,
      (get_pick_advice_enhanced db ma w cands deck pick rr).card_scores = r :: rs →
      (get_pick_advice_enhanced db ma w cands deck pick rr).confidence =
        min 95 (max 50 (|(eBestRow r rs).final_score - 60| + 50))) := by
  constructor
  · cases h : scoreCandidates db cands deck pick with
    | nil => intro r rs hcs; simp [get_pick_advice, h] at hcs
    | cons r0 rs0 =>
      intro r rs hcs
      have hcs0 : (get_pick_advice db cands deck pick rr).card_scores = r0 :: rs0 := by
        simp only [get_pick_advice, h]
        split_ifs <;> rfl
      rw [hcs0] at hcs
      injection hcs with h1 h2
      subst h1
      subst h2
      simp only [get_pick_advice, h]
      split_ifs <;> rfl
  · cases h : eScoreCandidates db ma w cands deck pick with
    | nil => intro r rs hcs; simp [get_pick_advice_enhanced, h] at hcs
    | cons r0 rs0 =>
      intro r rs hcs
      have hcs0 : (get_pick_advice_enhanced db ma w cands deck pick rr).card_scores
          = r0 :: rs0 := by
        simp only [get_pick_advice_enhanced, h]
        split_ifs <;> rfl
      rw [hcs0] at hcs
      injection hcs with h1 h2
      subst h1
      subst h2
      simp only [get_pick_advice_enhanced, h]
      split_ifs <;> rfl

/-- C4 witness: on the one-card database the base advisor's confidence is
the 90-clamped formula and the enhanced advisor's is the 95-clamped one. -/
theorem confidence_clamp_values_witness :
    (get_pick_advice weakDB ["lc"] [] 1 0).confidence =
      min 90 (max 50 (|(bestRow weakRow []).final_score - 60| + 50)) ∧
    (get_pick_advice_enhanced weakDB emptyMeta DEFAULT_WEIGHTS ["lc"] [] 1 0).confidence =
      min 95 (max 50 (|(eBestRow weakERow []).final_score - 60| + 50)) :=
  ⟨(confidence_clamp_values weakDB emptyMeta DEFAULT_WEIGHTS ["lc"] [] 1 0).1 weakRow []
      (by norm_num +decide [get_pick_advice, scoreCandidates, get_card_info, weakDB,
        weakCard, weakRow, analyze_deck, calculate_curve_bonus, calculate_role_bonus,
        duplication_penalty, ideal_curve, bestRow, calculate_reroll_threshold,
        List.filterMap_cons, List.find?_cons]),
   (confidence_clamp_values weakDB emptyMeta DEFAULT_WEIGHTS ["lc"] [] 1 0).2 weakERow []
      (by norm_num +decide [get_pick_advice_enhanced, eScoreCandidates, get_card_info,
        weakDB, weakCard, weakERow, analyze_deck, calculate_curve_bonus,
        calculate_role_bonus, duplication_penalty, ideal_curve, eBestRow,
        calculate_reroll_threshold, calculate_synergy_bonus, calculate_archetype_bonus,
        calculate_meta_bonus, analyze_deck_synergies, analyze_deck_archetype,
        class_mapping, emptyMeta, DEFAULT_WEIGHTS, dictGetD, dictGet, round1,
        List.filterMap_cons, List.find?_cons])⟩

/-- C4 counterexample: with a single scored candidate of final score 15
the base advisor returns confidence 90, while the claimed 95-clamped
formula gives 95. -/
theorem confidence_not_clamped_at_95 :
    (get_pick_advice weakDB ["lc"] [] 1 0).card_scores = [weakRow] ∧
    weakRow.final_score = 15 ∧
    (get_pick_advice weakDB ["lc"] [] 1 0).confidence = 90 ∧
    min 95 (max 50 (|(15 : ℚ) - 60| + 50)) = 95 ∧ ((90 : ℚ) ≠ 95) := by
  refine ⟨?_, by decide, ?_, by norm_num, by decide⟩ <;>
    norm_num +decide [get_pick_advice, scoreCandidates, get_card_info, weakDB, weakCard,
      weakRow, analyze_deck, calculate_curve_bonus, calculate_role_bonus,
      duplication_penalty, ideal_curve, bestRow, calculate_reroll_threshold,
      List.filterMap_cons, List.find?_cons]

/-- C5 (amended): the curve bonus always lies in `[-10, 19.5]`; in
particular the excess penalty never goes below −10, and the shortage
bonus is at most 15 except when the early-game low-cost multiplier
applies (`pick_index ≤ 8` and `cost ≤ 3`), where it can reach
`15 × 1.3 = 19.5`. -/
theorem curve_bonus_bounds (card_cost : Nat) (da : DeckAnalysis) (pick_index : Nat) :
    (-10 ≤ calculate_curve_bonus card_cost da pick_index ∧
      calculate_curve_bonus card_cost da pick_index ≤ 19.5) ∧
    (¬ (pick_index ≤ 8 ∧ card_cost ≤ 3) →
      calculate_curve_bonus card_cost da pick_index ≤ 15) := by
  have hideal : (0:ℚ) ≤ ideal_curve card_cost := by
    unfold ideal_curve; split <;> norm_num
  have hprog : (0:ℚ) ≤ (da.total_cards : ℚ) / 30 := by positivity
  simp only [calculate_curve_bonus]
  set cur : ℚ := ((da.curve card_cost : Nat) : ℚ) with hcur
  set adj : ℚ := ideal_curve card_cost * ((da.total_cards : ℚ) / 30) with hadj
  have hadjnn : 0 ≤ adj := mul_nonneg hideal hprog
  split_ifs with h1 h2 h3
  · have hm1 : min ((adj - cur) * 8) 15 ≤ 15 := min_le_right _ _
    have hm0 : 0 ≤ min ((adj - cur) * 8) 15 := le_min (by nlinarith) (by norm_num)
    exact ⟨⟨by nlinarith, by nlinarith⟩, fun hn => absurd h2 hn⟩
  · have hm1 : min ((adj - cur) * 8) 15 ≤ 15 := min_le_right _ _
    have hm0 : 0 ≤ min ((adj - cur) * 8) 15 := le_min (by nlinarith) (by norm_num)
    exact ⟨⟨by nlinarith, by nlinarith⟩, fun _ => by nlinarith⟩
  · have hca : 0 ≤ cur - adj := by nlinarith [not_lt.mp h1]
    have hm1 : min ((cur - adj) * 5) 10 ≤ 10 := min_le_right _ _
    have hm0 : 0 ≤ min ((cur - adj) * 5) 10 := le_min (by nlinarith) (by norm_num)
    exact ⟨⟨by nlinarith, by nlinarith⟩, fun _ => by nlinarith⟩
  · exact ⟨⟨by norm_num, by norm_num⟩, fun _ => by norm_num⟩

/-- C5 witness: at cost 5 and pick index 9 (no early-game multiplier) the
bonus on the empty-deck analysis is within `[-10, 15]`. -/
theorem curve_bonus_bounds_witness :
    -10 ≤ calculate_curve_bonus 5 emptyAnalysis 9 ∧
    calculate_curve_bonus 5 emptyAnalysis 9 ≤ 15 :=
  ⟨(curve_bonus_bounds 5 emptyAnalysis 9).1.1,
   (curve_bonus_bounds 5 emptyAnalysis 9).2 (by decide)⟩

/-- C5 counterexample: for cost 2 at pick index 8 against a 15-card deck
with no 2-drops, the cost is under-represented yet the bonus is
`min(3×8, 15) × 1.3 = 19.5 > 15`. -/
theorem curve_bonus_exceeds_15 :
    ((heavyAnalysis.curve 2 : ℚ) <
      ideal_curve 2 * ((heavyAnalysis.total_cards : ℚ) / 30)) ∧
    calculate_curve_bonus 2 heavyAnalysis 8 = 19.5 ∧ ¬ ((19.5 : ℚ) ≤ 15) := by
  refine ⟨by norm_num [heavyAnalysis, ideal_curve], ?_, by norm_num⟩
  norm_num [calculate_curve_bonus, heavyAnalysis, ideal_curve]

/-- C6 (amended): `recommended_card_id` is null exactly when the action is
`"reroll"` or no candidate could be scored; in the no-candidate case the
action is `"pick"` with a null id. -/
theorem recommended_null_iff_reroll_or_empty (db : DB) (ma : MetaAdjustments)
    (w : Dict String ℚ) (cands deck : List String) (pick rr : Nat) :
    ((get_pick_advice db cands deck pick rr).recommended_card_id = none ↔
      ((get_pick_advice db cands deck pick rr).action = "reroll" ∨
        (get_pick_advice db cands deck pick rr).card_scores = [])) ∧
    ((get_pick_advice_enhanced db ma w cands deck pick rr).recommended_card_id = none ↔
      ((get_pick_advice_enhanced db ma w cands deck pick rr).action = "reroll" ∨
        (get_pick_advice_enhanced db ma w cands deck pick rr).card_scores = [])) := by
  constructor
  · cases h : scoreCandidates db cands deck pick with
    | nil => simp [get_pick_advice, h]
    | cons r rs =>
      simp only [get_pick_advice, h]
      split_ifs with hc <;> simp
  · cases h : eScoreCandidates db ma w cands deck pick with
    | nil => simp [get_pick_advice_enhanced, h]
    | cons r rs =>
      simp only [get_pick_advice_enhanced, h]
      split_ifs with hc <;> simp

/-- C6 counterexample: with no scorable candidates both advisors return
action `"pick"` together with a null `recommended_card_id`, so null does
not imply reroll. -/
theorem recommended_null_on_pick :
    (get_pick_advice [] [] [] 1 0).action = "pick" ∧
    (get_pick_advice [] [] [] 1 0).recommended_card_id = none ∧
    (get_pick_advice_enhanced [] emptyMeta DEFAULT_WEIGHTS [] [] 1 0).action = "pick" ∧
    (get_pick_advice_enhanced [] emptyMeta DEFAULT_WEIGHTS [] [] 1 0).recommended_card_id
      = none :=
  ⟨by decide, by decide, by decide, by decide⟩

/-- C7 (amended): on the empty deck list `analyze_deck_archetype` returns
no detected archetype, confidence 0, and an empty recommendations list
(the generic message is not included: the early return skips
recommendation generation). -/
theorem archetype_empty_deck_result (db : DB) :
    analyze_deck_archetype db [] = ⟨none, none, 0, []⟩ := by
  simp [analyze_deck_archetype]

/-- C7 counterexample: the empty-deck result's recommendations list is
empty, although the generic balanced-play message does exist and is what
`_generate_recommendations` would produce for an undetected archetype. -/
theorem archetype_empty_deck_no_generic_message :
    (analyze_deck_archetype [] []).recommendations = [] ∧
    generate_recommendations [] none =
      ["明確なアーキタイプが検出されませんでした。バランス型を目指しましょう。"] :=
  ⟨by decide, rfl⟩

/-- C8 (amended): for followers whose attack and defense are present and
both nonzero, `stat_efficiency` is `(attack + defense − expected) × 2`;
it is 0 for non-followers, for missing stats, and — beyond the claim —
whenever either stat equals 0, because Python truthiness treats 0 like a
missing value. -/
theorem stat_efficiency_formula (card : Card) :
    (∀ a d : Int, card.card_type = "follower" → card.attack = some a →
      card.defense = some d → a ≠ 0 → d ≠ 0 →
      calculate_stat_efficiency card =
        ((a : ℚ) + (d : ℚ) - expected_stats card.cost) * 2) ∧
    ((card.card_type ≠ "follower" ∨ intFalsy card.attack = true ∨
        intFalsy card.defense = true) →
      calculate_stat_efficiency card = 0) := by
  constructor
  · intro a d ht ha hd hna hnd
    have h1 : (card.card_type != "follower") = false := by simp [ht]
    have h2 : intFalsy (some a) = false := by simp [intFalsy, hna]
    have h3 : intFalsy (some d) = false := by simp [intFalsy, hnd]
    simp [calculate_stat_efficiency, h1, ha, hd, h2, h3]
  · intro h
    rcases h with h | h | h
    · have h1 : (card.card_type != "follower") = true := by simp [h]
      simp [calculate_stat_efficiency, h1]
    · simp [calculate_stat_efficiency, h]
    · simp [calculate_stat_efficiency, h]

/-- C8 witness: a 3/3 follower of cost 2 gets the formula value, and a
spell gets 0. -/
theorem stat_efficiency_formula_witness :
    calculate_stat_efficiency vanilla33 =
      (((3 : Int) : ℚ) + ((3 : Int) : ℚ) - expected_stats vanilla33.cost) * 2 ∧
    calculate_stat_efficiency spellCard = 0 :=
  ⟨(stat_efficiency_formula vanilla33).1 3 3 rfl rfl rfl (by decide) (by decide),
   (stat_efficiency_formula spellCard).2 (Or.inl (by decide))⟩

/-- C8 counterexample: a follower with attack 0 and defense 1 has both
stats present, yet the code returns 0 while the claimed formula gives
`(0 + 1 − 2) × 2 = −2`. -/
theorem stat_efficiency_zero_attack :
    zeroAttackFollower.card_type = "follower" ∧
    zeroAttackFollower.attack = some 0 ∧ zeroAttackFollower.defense = some 1 ∧
    calculate_stat_efficiency zeroAttackFollower = 0 ∧
    (((0 : ℚ) + 1 - expected_stats zeroAttackFollower.cost) * 2 = -2) ∧
    ((-2 : ℚ) ≠ 0) := by
  refine ⟨rfl, rfl, rfl, by decide, ?_, by decide⟩
  norm_num [expected_stats, zeroAttackFollower]

/-- C9: updating the stored weights with any mapping `w` over the seven
factors (covering every currently stored key) and reading them back
yields exactly `w`: every lookup agrees with `w`, including non-default
custom values. -/
theorem update_weights_roundtrip (st w : Dict String ℚ)
    (hw : noDupKeys w = true) (hsub : keysSubB st w = true) (k : String) :
    dictGet (get_weights (update_weights st w)) k = dictGet w k := by
  rw [get_weights, update_weights, dictGet_dictUpdate w st hw k]
  cases h : dictGet w k with
  | some v => rfl
  | none => simpa using dictGet_none_of_keysSubB st w hsub k h

/-- C9 witness: setting custom weights over the default state preserves
the custom `"synergy"` value exactly. -/
theorem update_weights_roundtrip_witness :
    noDupKeys customWeights = true ∧
    keysSubB DEFAULT_WEIGHTS customWeights = true ∧
    dictGet (get_weights (update_weights DEFAULT_WEIGHTS customWeights)) "synergy" =
      dictGet customWeights "synergy" :=
  ⟨by decide, by decide,
   update_weights_roundtrip DEFAULT_WEIGHTS customWeights (by decide) (by decide) "synergy"⟩

/-- C10: with an empty current deck, both `calculate_synergy_bonus` and
`calculate_archetype_bonus` return a zero bonus and an empty reasons
list, for every database, candidate id and pick index. -/
theorem empty_deck_no_synergy_or_archetype_bonus (db : DB) (cand : String) (pick : Nat) :
    calculate_synergy_bonus db cand [] pick = (0, []) ∧
    calculate_archetype_bonus db cand [] = (0, []) := by
  constructor
  · simp [calculate_synergy_bonus]
  · simp [calculate_archetype_bonus]

end SV
